import Mathlib

/-!
Shallow embedding of the RS-autoclicker core (src/src/main.rs).

The program is three actors around a shared state:
  * a clicker loop (spawn_clicker_loop) that, while the atomic `clicking_flag`
    is set, emits one mouse click per iteration and sleeps the current
    `delay_ms` (re-read each iteration);
  * hotkey listener threads (start_hotkey_listener) that capture the selected
    hotkey once at creation and toggle the flag on every delivered key-press
    of that captured key;
  * the iced `update` handler translating UI messages into state writes.

Shared memory (`Arc<AtomicBool>`, `Arc<AtomicUsize>`, `Arc<Mutex<Hotkey>>`)
is embedded as a record `SharedState` threaded explicitly through the
functions that the Rust code lets mutate it.  `println!` side effects are
embedded as `List String` outputs.  `u32`/`usize` values are embedded as
`Nat`: the program only ever stores a `u32` into the wider `usize`
(`value as usize`, `sleep_time as u64`), so no wrap-around can occur and no
modulus is needed.
-/

namespace AutoClicker

/-- The `Hotkey` enum (main.rs lines 18-30). -/
inductive Hotkey where
  | F1 | F2 | F3 | F4 | F5 | F6 | F7 | F8 | F9 | F10
deriving DecidableEq, Inhabited, Fintype

/-- `Hotkey::ALL` (main.rs lines 33-44). -/
def Hotkey.ALL : List Hotkey :=
  [Hotkey.F1, Hotkey.F2, Hotkey.F3, Hotkey.F4, Hotkey.F5,
   Hotkey.F6, Hotkey.F7, Hotkey.F8, Hotkey.F9, Hotkey.F10]

/-- `rdev::Key`: the listener compares the delivered key against the captured
hotkey's image under `to_rdev_key`.  Only the ten function keys are ever
produced by `to_rdev_key`; every other `rdev::Key` variant is collapsed into
`other n` (the program never inspects them beyond equality). -/
inductive Key where
  | F1 | F2 | F3 | F4 | F5 | F6 | F7 | F8 | F9 | F10
  | other (n : Nat)
deriving DecidableEq

/-- `Hotkey::to_rdev_key` (main.rs lines 46-59). -/
def Hotkey.to_rdev_key : Hotkey → Key
  | Hotkey.F1 => Key.F1
  | Hotkey.F2 => Key.F2
  | Hotkey.F3 => Key.F3
  | Hotkey.F4 => Key.F4
  | Hotkey.F5 => Key.F5
  | Hotkey.F6 => Key.F6
  | Hotkey.F7 => Key.F7
  | Hotkey.F8 => Key.F8
  | Hotkey.F9 => Key.F9
  | Hotkey.F10 => Key.F10

/-- `Display for Hotkey` (main.rs lines 62-66), via the derived Debug text. -/
def Hotkey.show : Hotkey → String
  | Hotkey.F1 => "F1"
  | Hotkey.F2 => "F2"
  | Hotkey.F3 => "F3"
  | Hotkey.F4 => "F4"
  | Hotkey.F5 => "F5"
  | Hotkey.F6 => "F6"
  | Hotkey.F7 => "F7"
  | Hotkey.F8 => "F8"
  | Hotkey.F9 => "F9"
  | Hotkey.F10 => "F10"

/-- `rdev::EventType`: the callback only distinguishes `KeyPress(key)` from
everything else; the non-keyboard variants are collapsed into `otherEvent`. -/
inductive EventType where
  | KeyPress (key : Key)
  | KeyRelease (key : Key)
  | otherEvent (n : Nat)
deriving DecidableEq

/-- main.rs line 76. -/
def DEFAULT_DELAY_MS : Nat := 800

/-- main.rs line 77. -/
def DEFAULT_HOTKEY : Hotkey := Hotkey.F6

/-- The shared mutable state: `clicking_flag : Arc<AtomicBool>`,
`delay_ms : Arc<AtomicUsize>`, `selected_hotkey : Arc<Mutex<Hotkey>>`
(main.rs lines 80-82). -/
structure SharedState where
  clicking_flag : Bool
  delay_ms : Nat
  selected_hotkey : Hotkey
deriving DecidableEq, Inhabited

/-- The shared state as `main` creates it (main.rs lines 80-82), before any
thread is spawned. -/
def init_shared : SharedState :=
  { clicking_flag := false
    delay_ms := DEFAULT_DELAY_MS
    selected_hotkey := DEFAULT_HOTKEY }

/-- `start_clicker` (main.rs lines 176-181): acts only on the flag; the
returned list holds the `println!` output. -/
def start_clicker (flag : Bool) : Bool × List String :=
  if !flag then (true, ["Clicker STARTED."]) else (flag, [])

/-- `stop_clicker` (main.rs lines 183-188). -/
def stop_clicker (flag : Bool) : Bool × List String :=
  if flag then (false, ["Clicker STOPPED."]) else (flag, [])

/-- `toggle_clicker` (main.rs lines 167-174). -/
def toggle_clicker (flag : Bool) : Bool × List String :=
  if flag then stop_clicker flag else start_clicker flag

/-- The closure passed to `rdev::listen` (main.rs lines 145-151), for one
delivered event.  `hotkey` is the value captured at listener creation
(line 143); only the flag can be written. -/
def listener_callback (hotkey : Hotkey) (event : EventType) (flag : Bool) :
    Bool × List String :=
  match event with
  | EventType.KeyPress key =>
      if key = hotkey.to_rdev_key then toggle_clicker flag else (flag, [])
  | _ => (flag, [])

/-- `rdev::ListenError`: an opaque platform error; the program only
Debug-prints it, so its variants are collapsed into a numeric code. -/
structure ListenError where
  code : Nat
deriving DecidableEq

/-- The body of the thread spawned by `start_hotkey_listener`
(main.rs lines 141-154).  `captured` is the hotkey read once from the mutex
at creation (line 143); `dly` mirrors the `delay` Arc moved into the thread,
which the body never reads; `sub` is the outcome of the blocking
`rdev::listen` call: `Except.error e` when the subscription primitive fails
(it then delivers no events and the thread falls through to the error
`println!` and returns), `Except.ok evs` for a prefix of the delivered event
stream (on success `listen` never returns; the callback runs once per
event, each run reading and possibly writing the flag). -/
def run_listener (captured : Hotkey) (dly : Nat)
    (sub : Except ListenError (List EventType)) (s : SharedState) :
    SharedState × List String :=
  match sub with
  | Except.error e =>
      (s, ["Hotkey listener started.",
           "Error listening to keyboard events: " ++ toString e.code])
  | Except.ok evs =>
      let f := evs.foldl (fun f ev => (listener_callback captured ev f).1)
        s.clicking_flag
      ({ s with clicking_flag := f }, ["Hotkey listener started."])

/-- Thread-level state of the program: the shared cells plus the listener
threads.  `listeners` records, in spawn order, the hotkey captured by every
listener thread still running (dropping a `JoinHandle` detaches the thread,
it does not stop it); `registry` is the handle kept in the
`listener_handle` mutex (main.rs line 83), tagged by its captured key. -/
structure AppState where
  shared : SharedState
  listeners : List Hotkey
  registry : Option Hotkey
deriving DecidableEq

/-- `start_hotkey_listener` (main.rs lines 135-165): spawn a thread that
captures the current `selected_hotkey` (so it joins `listeners`), then
replace the handle in the registry, logging when an old handle is taken.
The old handle is only dropped (lines 157-163) - its thread keeps running,
so nothing leaves `listeners`. -/
def start_hotkey_listener (s : AppState) : AppState × List String :=
  ({ shared := s.shared
     listeners := s.listeners ++ [s.shared.selected_hotkey]
     registry := some s.shared.selected_hotkey },
   match s.registry with
   | some _ => ["Shutting down previous listener..."]
   | none => [])

/-- Delivery of one OS keyboard event: the OS hands the event to every live
listener thread's callback; each callback reads the flag and possibly writes
it back (main.rs lines 145-151).  The callbacks touch nothing but the flag. -/
def deliver_event (s : AppState) (ev : EventType) : AppState :=
  let f := s.listeners.foldl (fun f h => (listener_callback h ev f).1)
    s.shared.clicking_flag
  { s with shared := { s.shared with clicking_flag := f } }

/-- The `Message` enum (main.rs lines 190-196). -/
inductive Message where
  | StartClicker
  | StopClicker
  | SliderChanged (value : Nat)
  | HotkeyChanged (hotkey : Hotkey)
deriving DecidableEq

/-- Debug rendering of a message, as `println!` formats it
(main.rs line 239). -/
def Message.show : Message → String
  | Message.StartClicker => "StartClicker"
  | Message.StopClicker => "StopClicker"
  | Message.SliderChanged v => "SliderChanged(" ++ toString v ++ ")"
  | Message.HotkeyChanged h => "HotkeyChanged(" ++ h.show ++ ")"

/-- `AutoClickerApp` (main.rs lines 198-206): the Arc fields alias the
shared/thread state, embedded here as `app`; `slider_value` and
`is_toggling` are the app's own fields.  `last_toggle` is a wall-clock
`Instant` never read by `update` and is omitted. -/
structure AutoClickerApp where
  app : AppState
  slider_value : Nat
  is_toggling : Bool
deriving DecidableEq

/-- The program state after `main` ran (main.rs lines 79-103): shared cells
at their defaults, the clicker loop spawned, and `start_hotkey_listener`
called once, so one listener thread holding the default hotkey is live. -/
def main_state : AppState :=
  (start_hotkey_listener { shared := init_shared, listeners := [], registry := none }).1

/-- `AutoClickerApp::new` applied to `main`'s flags (main.rs lines 219-232). -/
def init_app : AutoClickerApp :=
  { app := main_state
    slider_value := DEFAULT_DELAY_MS
    is_toggling := true }

/-- `AutoClickerApp::update` (main.rs lines 238-276).  Returns the new state
and the `println!` lines emitted while handling the message. -/
def update (a : AutoClickerApp) (m : Message) : AutoClickerApp × List String :=
  let received := "Received message: " ++ m.show
  match m with
  | Message.StartClicker =>
      if !a.app.shared.clicking_flag then
        ({ a with app := { a.app with shared :=
            { a.app.shared with clicking_flag := true } } },
         [received, "Clicker STARTED."])
      else (a, [received])
  | Message.StopClicker =>
      if a.app.shared.clicking_flag then
        ({ a with app := { a.app with shared :=
            { a.app.shared with clicking_flag := false } } },
         [received, "Clicker STOPPED."])
      else (a, [received])
  | Message.SliderChanged value =>
      ({ a with
          slider_value := value
          app := { a.app with shared :=
            { a.app.shared with delay_ms := value } } },
       [received, "Delay updated to " ++ toString value ++ " ms"])
  | Message.HotkeyChanged hotkey =>
      let a1 := { a with app := { a.app with shared :=
          { a.app.shared with selected_hotkey := hotkey } } }
      let r := start_hotkey_listener a1.app
      ({ a1 with app := r.1 },
       [received, "Hotkey changed to " ++ hotkey.show] ++ r.2)

/-- Observable actions of the clicker thread. -/
inductive ClickAction where
  | click
  | sleep (ms : Nat)
deriving DecidableEq

/-- The warm-up sleep taken after the flag is observed set, before the first
click (main.rs line 112; the adjacent log text on line 111 says 500 ms, the
sleep is 1000 ms). -/
def WARMUP_MS : Nat := 1000

/-- The polling sleep of the idle outer loop (main.rs line 130). -/
def POLL_MS : Nat := 50

/-- The inner `while flag.load()` loop (main.rs lines 114-126) over a finite
trace of shared-cell snapshots: `env` lists, per iteration, the `(flag,
delay)` values the two atomics hold when that iteration reads them.  While
the flag reads true the body emits one click and then sleeps the `delay_ms`
read on that same iteration; the first false read exits the loop. -/
def inner_loop : List (Bool × Nat) → List ClickAction
  | [] => []
  | (flag, delay) :: rest =>
      if flag then
        ClickAction.click :: ClickAction.sleep delay :: inner_loop rest
      else []

/-- One pass of the outer `loop` (main.rs lines 109-131): if the flag reads
true, sleep the warm-up, run the inner loop (over `env`), then fall through;
either way end with the 50 ms poll sleep. -/
def outer_body (flag : Bool) (env : List (Bool × Nat)) : List ClickAction :=
  (if flag then ClickAction.sleep WARMUP_MS :: inner_loop env else [])
    ++ [ClickAction.sleep POLL_MS]

/-- The app after the user changes the hotkey to `K1` and then to `K2`,
starting from the freshly started program. -/
def after_two_hotkey_changes (K1 K2 : Hotkey) : AutoClickerApp :=
  (update (update init_app (Message.HotkeyChanged K1)).1
    (Message.HotkeyChanged K2)).1

/-- `Hotkey::to_rdev_key` maps the ten hotkeys to ten distinct `rdev` keys. -/
theorem to_rdev_key_injective :
    ∀ a b : Hotkey, a.to_rdev_key = b.to_rdev_key → a = b := by decide

/-- C3: `toggle_clicker` negates the running flag, and any even number of
consecutive toggles returns it to its original value. -/
theorem C3_toggle_symmetry :
    (∀ b : Bool, (toggle_clicker b).1 = !b) ∧
    ∀ (b : Bool) (n : Nat),
      (fun x => (toggle_clicker x).1)^[2 * n] b = b := by
  have hstep : ∀ b : Bool, (toggle_clicker b).1 = !b := by decide
  refine ⟨hstep, ?_⟩
  intro b n
  induction n generalizing b with
  | zero => rfl
  | succ n ih =>
      have h2 : 2 * (n + 1) = 2 * n + 1 + 1 := by ring
      rw [h2, Function.iterate_succ_apply, Function.iterate_succ_apply]
      have hbb : (toggle_clicker (toggle_clicker b).1).1 = b := by
        cases b <;> rfl
      simpa [hbb] using ih b

/-- C9: at startup the shared state holds exactly the defaults
running = false, interval = 800 ms, hotkey = F6; spawning the clicker loop
and the initial listener does not change the shared cells, so the app
starts from these defaults. -/
theorem C9_startup_defaults :
    init_shared.clicking_flag = false ∧
    init_shared.delay_ms = 800 ∧
    init_shared.selected_hotkey = Hotkey.F6 ∧
    DEFAULT_DELAY_MS = 800 ∧
    DEFAULT_HOTKEY = Hotkey.F6 ∧
    main_state.shared = init_shared ∧
    init_app.app.shared = init_shared := by decide

/-- C8: when the subscription primitive fails, the listener thread logs the
startup line and the error line and returns; the shared state - flag,
interval and hotkey alike - is exactly what it was, and no event is
processed and no retry happens (the thread's entire output is those two
log lines). -/
theorem C8_listener_error_terminates (captured : Hotkey) (d : Nat)
    (e : ListenError) (s : SharedState) :
    run_listener captured d (Except.error e) s =
      (s, ["Hotkey listener started.",
           "Error listening to keyboard events: " ++ toString e.code]) ∧
    (run_listener captured d (Except.error e) s).1.clicking_flag =
      s.clicking_flag ∧
    (run_listener captured d (Except.error e) s).1.delay_ms = s.delay_ms ∧
    (run_listener captured d (Except.error e) s).1.selected_hotkey =
      s.selected_hotkey :=
  ⟨rfl, rfl, rfl, rfl⟩

/-- C10: a listener run never writes anything but the running flag - the
interval and the selected hotkey come out unchanged - and its behaviour is
independent of the delay handle moved into the thread (it is never read);
likewise delivering any key event to the live listeners leaves the
interval, the hotkey and the listener set unchanged. -/
theorem C10_listener_frame (captured : Hotkey) (d d' : Nat)
    (sub : Except ListenError (List EventType)) (s : SharedState)
    (a : AppState) (ev : EventType) :
    (run_listener captured d sub s).1.delay_ms = s.delay_ms ∧
    (run_listener captured d sub s).1.selected_hotkey = s.selected_hotkey ∧
    run_listener captured d sub s = run_listener captured d' sub s ∧
    (deliver_event a ev).shared.delay_ms = a.shared.delay_ms ∧
    (deliver_event a ev).shared.selected_hotkey = a.shared.selected_hotkey ∧
    (deliver_event a ev).listeners = a.listeners ∧
    (deliver_event a ev).registry = a.registry := by
  cases sub <;> exact ⟨rfl, rfl, rfl, rfl, rfl, rfl, rfl⟩

/-- C5: while the flag reads true, every iteration of the inner loop emits
exactly one click followed by one sleep of the `delay_ms` value read from
the shared cell on that same iteration, so a mid-run interval change takes
effect on the very next sleep. -/
theorem C5_inner_loop_rate (env : List (Bool × Nat))
    (h : ∀ p ∈ env, p.1 = true) :
    inner_loop env =
      env.flatMap (fun p => [ClickAction.click, ClickAction.sleep p.2]) := by
  induction env with
  | nil => rfl
  | cons p rest ih =>
      obtain ⟨b, d⟩ := p
      have hb : b = true := h (b, d) (List.mem_cons_self _ _)
      subst hb
      simp only [inner_loop, if_pos, List.flatMap_cons]
      have := ih (fun q hq => h q (List.mem_cons_of_mem _ hq))
      simp [this]

/-- C5 witness: two running iterations in which the interval changes from
800 ms to 100 ms; the second sleep already uses 100 ms. -/
theorem C5_inner_loop_rate_witness :
    inner_loop [(true, 800), (true, 100)] =
      List.flatMap [(true, 800), (true, 100)]
        (fun p => [ClickAction.click, ClickAction.sleep p.2]) :=
  C5_inner_loop_rate [(true, 800), (true, 100)] (by decide)

/-- C6 counterexample: the very first action of the clicker loop after it
observes the flag set is a 1000 ms sleep, before any click - the warm-up
delay is not 0. -/
theorem C6_counterexample :
    outer_body true [(true, DEFAULT_DELAY_MS)] =
      [ClickAction.sleep 1000, ClickAction.click, ClickAction.sleep 800,
       ClickAction.sleep 50] ∧
    (outer_body true [(true, DEFAULT_DELAY_MS)]).head? ≠
      some ClickAction.click ∧
    WARMUP_MS ≠ 0 := by decide

/-- C6 amended: the warm-up delay is a hard-coded 1000 ms sleep, applied
unconditionally each time the outer loop observes the flag set, before the
first click of that burst; with the flag clear the pass is just the 50 ms
poll sleep. -/
theorem C6_warmup_hardcoded_1000 :
    WARMUP_MS = 1000 ∧
    ∀ env : List (Bool × Nat),
      outer_body true env =
        ClickAction.sleep WARMUP_MS ::
          (inner_loop env ++ [ClickAction.sleep POLL_MS]) ∧
      outer_body false env = [ClickAction.sleep POLL_MS] :=
  ⟨rfl, fun _ => ⟨rfl, rfl⟩⟩

/-- C7: the listener callback flips the flag exactly when the delivered
event is a key-press of the captured hotkey - releases and other keys leave
it unchanged - and there is no de-duplication: a second delivered press of
the same key toggles again. -/
theorem C7_callback_toggle (h : Hotkey) (ev : EventType) (f : Bool) :
    (listener_callback h ev f).1 =
      (if ev = EventType.KeyPress h.to_rdev_key then !f else f) ∧
    (listener_callback h (EventType.KeyPress h.to_rdev_key)
        ((listener_callback h (EventType.KeyPress h.to_rdev_key) f).1)).1
      = f := by
  constructor
  · cases ev with
    | KeyPress key =>
        by_cases hk : key = Hotkey.to_rdev_key h
        · subst hk
          cases f <;> simp [listener_callback, toggle_clicker,
            start_clicker, stop_clicker]
        · simp [listener_callback, hk]
    | KeyRelease key => simp [listener_callback]
    | otherEvent n => simp [listener_callback]
  · cases f <;> simp [listener_callback, toggle_clicker, start_clicker,
      stop_clicker]

/-- The slider widget's bounds (main.rs line 309: `slider(10..=1000, ..)`);
the only guard on interval values, living in the view, not in `update`. -/
def SLIDER_MIN : Nat := 10

/-- The slider widget's upper bound (main.rs line 309). -/
def SLIDER_MAX : Nat := 1000

/-- The slider widget's step (main.rs line 309: `.step(10u32)`). -/
def SLIDER_STEP : Nat := 10

/-- C1 counterexample: handling `SliderChanged 2000` stores 2000 into
`interval_ms` - the handler does not clamp, so the claimed bound
10 ≤ interval_ms ≤ 1000 fails. -/
theorem C1_counterexample :
    (update init_app (Message.SliderChanged 2000)).1.app.shared.delay_ms
      = 2000 ∧
    ¬ (update init_app (Message.SliderChanged 2000)).1.app.shared.delay_ms
      ≤ 1000 := by decide

/-- C1 amended: the handler writes the raw value, unclamped and
unquantized; the bound 10 ≤ interval_ms ≤ 1000 therefore holds exactly for
inputs already inside the slider widget's range [10, 1000], which is the
only range the UI can emit. -/
theorem C1_interval_written_raw (a : AutoClickerApp) (v : Nat) :
    (update a (Message.SliderChanged v)).1.app.shared.delay_ms = v ∧
    (SLIDER_MIN ≤ v → v ≤ SLIDER_MAX →
      10 ≤ (update a (Message.SliderChanged v)).1.app.shared.delay_ms ∧
      (update a (Message.SliderChanged v)).1.app.shared.delay_ms ≤ 1000) :=
  ⟨rfl, fun h1 h2 => ⟨h1, h2⟩⟩

/-- C1 witness: a slider value inside the widget's range, 500 ms, is stored
verbatim and satisfies the bound. -/
theorem C1_interval_written_raw_witness :
    (update init_app (Message.SliderChanged 500)).1.app.shared.delay_ms
      = 500 ∧
    (10 ≤ (update init_app (Message.SliderChanged 500)).1.app.shared.delay_ms ∧
     (update init_app (Message.SliderChanged 500)).1.app.shared.delay_ms
       ≤ 1000) :=
  ⟨(C1_interval_written_raw init_app 500).1,
   (C1_interval_written_raw init_app 500).2 (by decide) (by decide)⟩

/-- C2 counterexample: from the fresh program, change the hotkey to F1 and
then to F2; a subsequent press of F1 still flips the running flag (the
abandoned F1 listener thread is alive and toggles), refuting "a key-press
of K1 never changes the running flag". -/
theorem C2_counterexample :
    (after_two_hotkey_changes Hotkey.F1 Hotkey.F2).app.shared.clicking_flag
      = false ∧
    (deliver_event (after_two_hotkey_changes Hotkey.F1 Hotkey.F2).app
        (EventType.KeyPress (Hotkey.to_rdev_key Hotkey.F1))).shared.clicking_flag
      = true := by decide

/-- C2 amended: after SetHotkey(K1) then SetHotkey(K2) (K1, K2 and the
default F6 pairwise distinct) the live listener threads are exactly those
that captured F6, K1 and K2, each holding the hotkey read once at its
creation; a press of K2 toggles running, but a press of K1 ALSO still
toggles it through the abandoned K1 listener; and event delivery depends
only on the captured values, never on the current hotkey cell (a listener
never re-reads it). -/
theorem C2_listener_replacement (K1 K2 : Hotkey)
    (h1 : K1 ≠ Hotkey.F6) (h2 : K2 ≠ Hotkey.F6) (h12 : K1 ≠ K2) :
    (after_two_hotkey_changes K1 K2).app.listeners = [Hotkey.F6, K1, K2] ∧
    (after_two_hotkey_changes K1 K2).app.shared.clicking_flag = false ∧
    (deliver_event (after_two_hotkey_changes K1 K2).app
        (EventType.KeyPress K2.to_rdev_key)).shared.clicking_flag = true ∧
    (deliver_event (after_two_hotkey_changes K1 K2).app
        (EventType.KeyPress K1.to_rdev_key)).shared.clicking_flag = true ∧
    ∀ (k : Hotkey) (ev : EventType),
      (deliver_event
        { (after_two_hotkey_changes K1 K2).app with shared :=
            { (after_two_hotkey_changes K1 K2).app.shared with
                selected_hotkey := k } } ev).shared.clicking_flag =
      (deliver_event (after_two_hotkey_changes K1 K2).app
        ev).shared.clicking_flag := by
  have e1 : K2.to_rdev_key ≠ Hotkey.to_rdev_key Hotkey.F6 :=
    fun h => h2 (to_rdev_key_injective _ _ h)
  have e2 : K2.to_rdev_key ≠ K1.to_rdev_key :=
    fun h => h12 (to_rdev_key_injective _ _ h).symm
  have e4 : K1.to_rdev_key ≠ K2.to_rdev_key :=
    fun h => h12 (to_rdev_key_injective _ _ h)
  have e3 : K1.to_rdev_key ≠ Hotkey.to_rdev_key Hotkey.F6 :=
    fun h => h1 (to_rdev_key_injective _ _ h)
  refine ⟨rfl, rfl, ?_, ?_, fun k ev => rfl⟩
  · show (deliver_event
      { shared := { clicking_flag := false, delay_ms := 800,
                    selected_hotkey := K2 },
        listeners := [Hotkey.F6, K1, K2], registry := some K2 }
      (EventType.KeyPress K2.to_rdev_key)).shared.clicking_flag = true
    simp [deliver_event, listener_callback, e1, e2, toggle_clicker,
      start_clicker]
  · show (deliver_event
      { shared := { clicking_flag := false, delay_ms := 800,
                    selected_hotkey := K2 },
        listeners := [Hotkey.F6, K1, K2], registry := some K2 }
      (EventType.KeyPress K1.to_rdev_key)).shared.clicking_flag = true
    simp [deliver_event, listener_callback, e3, e4, toggle_clicker,
      start_clicker]

/-- C2 witness: the amended statement at K1 = F1, K2 = F2. -/
theorem C2_listener_replacement_witness :
    (after_two_hotkey_changes Hotkey.F1 Hotkey.F2).app.listeners
      = [Hotkey.F6, Hotkey.F1, Hotkey.F2] ∧
    (after_two_hotkey_changes Hotkey.F1 Hotkey.F2).app.shared.clicking_flag
      = false ∧
    (deliver_event (after_two_hotkey_changes Hotkey.F1 Hotkey.F2).app
        (EventType.KeyPress (Hotkey.to_rdev_key Hotkey.F2))).shared.clicking_flag
      = true ∧
    (deliver_event (after_two_hotkey_changes Hotkey.F1 Hotkey.F2).app
        (EventType.KeyPress (Hotkey.to_rdev_key Hotkey.F1))).shared.clicking_flag
      = true ∧
    ∀ (k : Hotkey) (ev : EventType),
      (deliver_event
        { (after_two_hotkey_changes Hotkey.F1 Hotkey.F2).app with shared :=
            { (after_two_hotkey_changes Hotkey.F1 Hotkey.F2).app.shared with
                selected_hotkey := k } } ev).shared.clicking_flag =
      (deliver_event (after_two_hotkey_changes Hotkey.F1 Hotkey.F2).app
        ev).shared.clicking_flag :=
  C2_listener_replacement Hotkey.F1 Hotkey.F2 (by decide) (by decide)
    (by decide)

/-- C4: Start while already running and Stop while already stopped leave
the state exactly as it was and emit no "Clicker STARTED." / "Clicker
STOPPED." signal (only the unconditional received-message trace line);
likewise the listener-side `start_clicker` / `stop_clicker` are no-ops
without output on redundant transitions. -/
theorem C4_redundant_transitions_noop (a b : AutoClickerApp)
    (ha : a.app.shared.clicking_flag = true)
    (hb : b.app.shared.clicking_flag = false) :
    (update a Message.StartClicker).1 = a ∧
    "Clicker STARTED." ∉ (update a Message.StartClicker).2 ∧
    (update b Message.StopClicker).1 = b ∧
    "Clicker STOPPED." ∉ (update b Message.StopClicker).2 ∧
    start_clicker true = (true, []) ∧
    stop_clicker false = (false, []) := by
  refine ⟨?_, ?_, ?_, ?_, rfl, rfl⟩
  · simp [update, ha]
  · simp [update, ha, Message.show]
  · simp [update, hb]
  · simp [update, hb, Message.show]

/-- C4 witness: the app right after a successful Start has the flag set;
redundant Start leaves it untouched, and from the fresh (stopped) app a
redundant Stop is equally a silent no-op. -/
theorem C4_redundant_transitions_noop_witness :
    (update (update init_app Message.StartClicker).1 Message.StartClicker).1
      = (update init_app Message.StartClicker).1 ∧
    "Clicker STARTED." ∉
      (update (update init_app Message.StartClicker).1
        Message.StartClicker).2 ∧
    (update init_app Message.StopClicker).1 = init_app ∧
    "Clicker STOPPED." ∉ (update init_app Message.StopClicker).2 ∧
    start_clicker true = (true, []) ∧
    stop_clicker false = (false, []) :=
  C4_redundant_transitions_noop (update init_app Message.StartClicker).1
    init_app (by decide) (by decide)

end AutoClicker
